import Mathlib

/-!
Verification development for the Connect worker for Google Cloud Pub/Sub.

The development shallowly embeds the two source files:

- lib/processNotification.js : the per-message pipeline (parse, filter,
  fulfill via saveDoc, optional LIFX actuation) and the test harness
  (processTest with its shift-and-write file ring and break exit);
- the worker mainline (messageHandler, listenForever, testToken) that
  receives Pub/Sub messages, dispatches them to the pipeline and performs
  acknowledgment.

External collaborators (xml2js parsing, the DocuSign SDK, the LIFX HTTP
call, the filesystem) are modeled by explicit inputs: the decode step is
an Option-valued input (none = the parse or the destructuring of the
notification threw), remote calls are oracles carried in an Env record,
and the filesystem is a path-indexed store threaded through the
functions.  Whether an external call throws is an oracle bit; the control
flow reacting to it is translated line by line from the source.
-/

namespace Worker

/-- Relevant fields of ds_configuration.js as read by the two source files. -/
structure Config where
  debug : Bool
  envelopeCustomField : String
  envelopeColorCustomField : String
  lifxAccessToken : String
  lifxSelector : String
  outputFilePefix : String
  outputDir : String
  enableBreakTest : Bool
  clientId : String

/-- An entry of EnvelopeStatus.CustomFields[0].CustomField: the js code
reads field.Name[0] and field.Value[0]. -/
structure Field where
  Name : String
  Value : String
deriving DecidableEq

/-- The envelope-status record destructured from the parsed notification in
processNotification.process (lines 59-71 of processNotification.js).
completed is read only when status is Completed. -/
structure EnvelopeStatus where
  envelopeId : String
  created : String
  status : String
  completed : Option String
  subject : String
  senderName : String
  senderEmail : String
  customFields : List Field

/-- A message body successfully produced by JSON.parse in messageHandler:
the test value (js falsy modeled as the empty string) and the outcome of
decoding body.xml.  none models any throw while parsing the xml or while
destructuring the envelope-status record out of it. -/
structure Body where
  test : String
  decoded : Option EnvelopeStatus

/-- Oracles for the external calls made during one message handling. -/
structure Env where
  cwd : String
  saveDocFails : Bool
  rpFails : Bool
  docBytes : String → String

/-- Files on disk, keyed by path. -/
def FS := String → Option String

/-- The harness marker files testOutputDir/test1.txt .. , keyed by index. -/
def TFS := Nat → Option String

/-- Js string truthiness for a possibly-null string value. -/
def truthy : Option String → Bool
  | none => false
  | some s => s != ""

/-- Char class of the js regex metacharacter w without the unicode flag:
ASCII letters, digits and the underscore. -/
def isWordChar (c : Char) : Bool :=
  (65 ≤ c.toNat && c.toNat ≤ 90) ||
  (97 ≤ c.toNat && c.toNat ≤ 122) ||
  (48 ≤ c.toNat && c.toNat ≤ 57) ||
  c == '_'

/-- orderNumber.replace of every non-word character by an underscore
(processNotification.js line 169). -/
def sanitize (s : String) : String :=
  ⟨s.data.map (fun c => if isWordChar c then c else '_')⟩

/-- Does needle occur as a prefix of hay (on character lists). -/
def prefixMatch : List Char → List Char → Bool
  | [], _ => true
  | _ :: _, [] => false
  | a :: as, b :: bs => a == b && prefixMatch as bs

/-- Does needle occur as a contiguous substring of hay. -/
def infixMatch (needle : List Char) : List Char → Bool
  | [] => prefixMatch needle []
  | b :: bs => prefixMatch needle (b :: bs) || infixMatch needle bs

/-- Js test.includes applied to the break marker. -/
def includesBreak (s : String) : Bool :=
  infixMatch "/break".data s.data

/-- getOrderNumber: first match over the custom fields by the configured
field name, null when absent (processNotification.js lines 133-138). -/
def getOrderNumber (cfg : Config) (es : EnvelopeStatus) : Option String :=
  (es.customFields.find? (fun f => f.Name == cfg.envelopeCustomField)).map Field.Value

/-- getLightColor: first match over the custom fields by the configured
color field name, null when absent (processNotification.js lines 145-150). -/
def getLightColor (cfg : Config) (es : EnvelopeStatus) : Option String :=
  (es.customFields.find? (fun f => f.Name == cfg.envelopeColorCustomField)).map Field.Value

/-- path.join modeled on posix paths. -/
def pathJoin (a b : String) : String := a ++ "/" ++ b

/-- The output path used by saveDoc: outputDir joined with
outputFilePefix ++ sanitized order number ++ the pdf extension, where
outputDir is process.cwd() joined with the configured directory. -/
def savePath (cfg : Config) (env : Env) (orderNumber : String) : String :=
  pathJoin (pathJoin env.cwd cfg.outputDir)
    (cfg.outputFilePefix ++ sanitize orderNumber ++ ".pdf")

/-- fse.writeFile: create or overwrite the file at path p with contents v. -/
def writeFile (fs : FS) (p v : String) : FS :=
  fun q => if q = p then some v else fs q

/-- Result of one saveDoc call: the filesystem afterwards and whether the
call returned normally (ok = false means it threw its saveDoc error). -/
structure SaveOutcome where
  fs : FS
  ok : Bool

/-- saveDoc (processNotification.js lines 158-188).  env.saveDocFails
models a throw of checkToken, getDocument or the fse calls, caught and
rethrown before any write is recorded; otherwise the document bytes are
written at the sanitized path, and afterwards the configured break test
may throw (also caught and rethrown), leaving the file written. -/
def saveDoc (cfg : Config) (env : Env) (fs : FS)
    (envelopeId orderNumber : String) : SaveOutcome :=
  if env.saveDocFails then
    { fs := fs, ok := false }
  else
    let fs2 := writeFile fs (savePath cfg env orderNumber) (env.docBytes envelopeId)
    if cfg.enableBreakTest && includesBreak orderNumber then
      { fs := fs2, ok := false }
    else
      { fs := fs2, ok := true }

/-- How one call of process or messageHandler ended: a resolved promise, a
rejected promise (an uncaught throw inside the async function), or a
process.exit with the given status code. -/
inductive PResult where
  | resolved
  | rejected
  | exited (code : Nat)
deriving DecidableEq

/-- Rename testOutputDir/test i .txt to test i+1 .txt, overwriting the
destination; a missing source makes renameSync throw, which the empty
catch ignores (processNotification.js lines 216-222). -/
def renameStep (tfs : TFS) (i : Nat) : TFS :=
  match tfs i with
  | none => tfs
  | some v => fun j => if j = i + 1 then some v else if j = i then none else tfs j

/-- The shift loop with counter i running from n down to 1. -/
def shiftLoop : Nat → TFS → TFS
  | 0, tfs => tfs
  | n + 1, tfs => shiftLoop n (renameStep tfs (n + 1))

/-- The full shift of the source: i from 19 down to 1. -/
def shiftFiles (tfs : TFS) : TFS := shiftLoop 19 tfs

/-- processTest (processNotification.js lines 199-226): exit with status 2
when the break test is enabled and the value carries the break marker,
before any file operation; otherwise shift the marker files and write the
new value to test1.txt. -/
def processTest (cfg : Config) (test : String) (tfs : TFS) : PResult × TFS :=
  if cfg.enableBreakTest && includesBreak test then
    (.exited 2, tfs)
  else
    (.resolved, fun j => if j = 1 then some test else shiftFiles tfs j)

/-- Everything observable about one processNotification.process call. -/
structure Outcome where
  fs : FS
  tfs : TFS
  saveDocCalls : Nat
  lifxCalls : Nat
  result : PResult

/-- processNotification.process (lines 52-126).  A truthy test value goes
to processTest (under the lock, which is immaterial for a single call).
Otherwise: a decode throw rejects; a status other than Completed or a
falsy order number returns after the filter; a saveDoc throw is caught
and turned into a rejection; the LIFX call is attempted only under the
line-117 condition and its own failure is swallowed. -/
def process (cfg : Config) (env : Env) (fs : FS) (tfs : TFS)
    (test : String) (decoded : Option EnvelopeStatus) : Outcome :=
  if test != "" then
    let r := processTest cfg test tfs
    { fs := fs, tfs := r.2, saveDocCalls := 0, lifxCalls := 0, result := r.1 }
  else
    match decoded with
    | none =>
      { fs := fs, tfs := tfs, saveDocCalls := 0, lifxCalls := 0, result := .rejected }
    | some es =>
      if es.status != "Completed" then
        { fs := fs, tfs := tfs, saveDocCalls := 0, lifxCalls := 0, result := .resolved }
      else if !truthy (getOrderNumber cfg es) then
        { fs := fs, tfs := tfs, saveDocCalls := 0, lifxCalls := 0, result := .resolved }
      else
        let orderNumber := (getOrderNumber cfg es).getD ""
        let so := saveDoc cfg env fs es.envelopeId orderNumber
        if so.ok then
          if truthy (getLightColor cfg es) && cfg.lifxAccessToken != "" &&
              cfg.lifxAccessToken != "\x7bLIFX_ACCESS_TOKEN\x7d" then
            { fs := so.fs, tfs := tfs, saveDocCalls := 1, lifxCalls := 1,
              result := .resolved }
          else
            { fs := so.fs, tfs := tfs, saveDocCalls := 1, lifxCalls := 0,
              result := .resolved }
        else
          { fs := so.fs, tfs := tfs, saveDocCalls := 1, lifxCalls := 0,
            result := .rejected }

/-- Everything observable about one messageHandler call: the stores, the
side-effect call counts, how many times ack and nack were invoked on the
message, and whether the process exited. -/
structure HOutcome where
  fs : FS
  tfs : TFS
  saveDocCalls : Nat
  lifxCalls : Nat
  acks : Nat
  nacks : Nat
  exited : Option Nat

/-- messageHandler from the worker mainline.  body none models a JSON.parse
throw (body = false): the message is logged and acked.  Otherwise process
is awaited without a try block, so a rejection propagates and the ack call
is skipped; message.nack is never invoked anywhere in the source.  The ack
call itself sits in a try whose catch only logs, so it counts as invoked
even if it were to throw. -/
def messageHandler (cfg : Config) (env : Env) (fs : FS) (tfs : TFS)
    (body : Option Body) : HOutcome :=
  match body with
  | none =>
    { fs := fs, tfs := tfs, saveDocCalls := 0, lifxCalls := 0,
      acks := 1, nacks := 0, exited := none }
  | some b =>
    let o := process cfg env fs tfs b.test b.decoded
    match o.result with
    | .resolved =>
      { fs := o.fs, tfs := o.tfs, saveDocCalls := o.saveDocCalls,
        lifxCalls := o.lifxCalls, acks := 1, nacks := 0, exited := none }
    | .rejected =>
      { fs := o.fs, tfs := o.tfs, saveDocCalls := o.saveDocCalls,
        lifxCalls := o.lifxCalls, acks := 0, nacks := 0, exited := none }
    | .exited c =>
      { fs := o.fs, tfs := o.tfs, saveDocCalls := o.saveDocCalls,
        lifxCalls := o.lifxCalls, acks := 0, nacks := 0, exited := some c }

/-- Outcome of one dsJwtAuth.checkToken call as seen by testToken: success,
an error whose response carries a body (with or without the
consent_required error code), or an error without a response body. -/
inductive CheckTokenOutcome where
  | ok
  | errorWithBody (consentRequired : Bool)
  | errorNoBody
deriving DecidableEq

/-- How the startup check ended: fall through to the queue loop, terminate
via process.exit with the given status, or rethrow the exception. -/
inductive StartupResult where
  | proceed
  | exit (code : Nat)
  | rethrow
deriving DecidableEq

/-- testToken from the worker mainline (lines 187-228): an unconfigured or
placeholder clientId prints instructions and calls process.exit() — with
no argument, so the status is the node default 0; a checkToken error with
a response body prints either the consent url or the API problem and also
calls process.exit() with no argument; an error without a response body is
rethrown. -/
def testToken (clientId : String) (chk : CheckTokenOutcome) : StartupResult :=
  if clientId = "" || clientId = "\x7bCLIENT_ID\x7d" then
    .exit 0
  else
    match chk with
    | .ok => .proceed
    | .errorWithBody true => .exit 0
    | .errorWithBody false => .exit 0
    | .errorNoBody => .rethrow

/-! Sample fixtures used by closed witnesses and counterexamples. -/

/-- A sample configuration matching the defaults of ds_configuration.js. -/
def cfgEx : Config :=
  { debug := false, envelopeCustomField := "Sales order",
    envelopeColorCustomField := "Light color", lifxAccessToken := "",
    lifxSelector := "all", outputFilePefix := "Order_", outputDir := "output",
    enableBreakTest := false, clientId := "" }

/-- The sample configuration with the break test enabled and a LIFX token. -/
def cfgLifx : Config :=
  { cfgEx with enableBreakTest := true, lifxAccessToken := "tok-1" }

/-- Oracles for a run where every external call succeeds. -/
def envOk : Env :=
  { cwd := "/app", saveDocFails := false, rpFails := false,
    docBytes := fun _ => "PDFBYTES" }

/-- Oracles for a run where the fulfillment step throws. -/
def envFail : Env := { envOk with saveDocFails := true }

/-- Oracles for a run where only the LIFX call throws. -/
def envRpFail : Env := { envOk with rpFails := true }

/-- An empty output store. -/
def fsEmpty : FS := fun _ => none

/-- An empty harness store. -/
def tfsEmpty : TFS := fun _ => none

/-- A completed envelope carrying a Sales order and a Light color field. -/
def esEx : EnvelopeStatus :=
  { envelopeId := "env-1", created := "2019-01-01", status := "Completed",
    completed := some "2019-01-02", subject := "subj", senderName := "Pat",
    senderEmail := "pat@example.com",
    customFields := [⟨"Sales order", "SO-123/A"⟩, ⟨"Light color", "green"⟩] }

/-! Helper lemmas. -/

/-- Overwriting the same path with the same contents twice equals once. -/
theorem writeFile_idem (fs : FS) (p v : String) :
    writeFile (writeFile fs p v) p v = writeFile fs p v := by
  funext q
  by_cases h : q = p <;> simp [writeFile, h]

/-- When the external calls succeed, saveDoc leaves the store with the
document written at the sanitized path, whether or not the break test
then throws. -/
theorem saveDoc_fs (cfg : Config) (env : Env) (fs : FS) (eid k : String)
    (h : env.saveDocFails = false) :
    (saveDoc cfg env fs eid k).fs =
      writeFile fs (savePath cfg env k) (env.docBytes eid) := by
  unfold saveDoc
  rw [h]
  simp only [Bool.false_eq_true, if_false]
  split <;> rfl

/-- C5.  Sanitization of the business key is total and deterministic (a
function on strings), preserves length, rewrites exactly the non-word
characters to underscores, and maps the sample key SO-123/A to SO_123_A. -/
theorem sanitize_spec :
    sanitize "SO-123/A" = "SO_123_A" ∧
    ∀ s : String, (sanitize s).length = s.length ∧
      ∀ i : Nat, (sanitize s).data[i]? =
        (s.data[i]?).map (fun c => if isWordChar c then c else '_') := by
  refine ⟨by decide, fun s => ⟨?_, fun i => ?_⟩⟩
  · show (s.data.map _).length = s.data.length
    exact s.data.length_map _
  · exact List.getElem?_map _ s.data i

/-- C4.  Fulfillment writes the artifact to the deterministic path
outputDir/prefix ++ sanitize(key) ++ .pdf with overwrite semantics: the
written store holds the document bytes at that path, and running saveDoc
twice with the same key yields the same store as running it once. -/
theorem saveDoc_idempotent (cfg : Config) (env : Env) (fs : FS) (eid k : String)
    (h : env.saveDocFails = false) :
    savePath cfg env k =
      pathJoin (pathJoin env.cwd cfg.outputDir)
        (cfg.outputFilePefix ++ sanitize k ++ ".pdf") ∧
    (saveDoc cfg env fs eid k).fs (savePath cfg env k) = some (env.docBytes eid) ∧
    (saveDoc cfg env (saveDoc cfg env fs eid k).fs eid k).fs =
      (saveDoc cfg env fs eid k).fs := by
  refine ⟨rfl, ?_, ?_⟩
  · rw [saveDoc_fs cfg env fs eid k h]
    simp [writeFile]
  · rw [saveDoc_fs cfg env fs eid k h, saveDoc_fs cfg env _ eid k h,
      writeFile_idem]

/-- Witness for C4 at a concrete configuration, store and key. -/
theorem saveDoc_idempotent_witness :
    envOk.saveDocFails = false ∧
    ((saveDoc cfgEx envOk fsEmpty "env-1" "SO-123/A").fs
        (savePath cfgEx envOk "SO-123/A") = some (envOk.docBytes "env-1") ∧
      (saveDoc cfgEx envOk (saveDoc cfgEx envOk fsEmpty "env-1" "SO-123/A").fs
          "env-1" "SO-123/A").fs =
        (saveDoc cfgEx envOk fsEmpty "env-1" "SO-123/A").fs) :=
  ⟨rfl, (saveDoc_idempotent cfgEx envOk fsEmpty "env-1" "SO-123/A" rfl).2.1,
    (saveDoc_idempotent cfgEx envOk fsEmpty "env-1" "SO-123/A" rfl).2.2⟩

/-- C9.  Extraction of the business key and of the light color is a
first-match lookup over the ordered custom fields by the configured name:
it returns none when no field matches, and the first matching field's
value otherwise, so duplicates are resolved by first match. -/
theorem customField_first_match (cfg : Config) (base : EnvelopeStatus)
    (pre post : List Field) (f : Field) :
    ((∀ g ∈ base.customFields, g.Name ≠ cfg.envelopeCustomField) →
        getOrderNumber cfg base = none) ∧
    ((∀ g ∈ pre, g.Name ≠ cfg.envelopeCustomField) →
        f.Name = cfg.envelopeCustomField →
        getOrderNumber cfg { base with customFields := pre ++ f :: post } =
          some f.Value) ∧
    ((∀ g ∈ base.customFields, g.Name ≠ cfg.envelopeColorCustomField) →
        getLightColor cfg base = none) ∧
    ((∀ g ∈ pre, g.Name ≠ cfg.envelopeColorCustomField) →
        f.Name = cfg.envelopeColorCustomField →
        getLightColor cfg { base with customFields := pre ++ f :: post } =
          some f.Value) := by
  refine ⟨fun h => ?_, fun hpre hf => ?_, fun h => ?_, fun hpre hf => ?_⟩ <;>
    simp only [getOrderNumber, getLightColor, List.find?_append]
  · rw [List.find?_eq_none.mpr (fun g hg => by simp [h g hg])]
    rfl
  · rw [List.find?_eq_none.mpr (fun g hg => by simp [hpre g hg]),
      List.find?_cons_of_pos _ (by simp [hf])]
    rfl
  · rw [List.find?_eq_none.mpr (fun g hg => by simp [h g hg])]
    rfl
  · rw [List.find?_eq_none.mpr (fun g hg => by simp [hpre g hg]),
      List.find?_cons_of_pos _ (by simp [hf])]
    rfl

/-- Witness for C9: with a duplicated Sales order field the first value
wins, and a missing color name yields none. -/
theorem customField_first_match_witness :
    getOrderNumber cfgEx
      { esEx with customFields :=
          [⟨"Other", "x"⟩, ⟨"Sales order", "FIRST"⟩, ⟨"Sales order", "SECOND"⟩] } =
      some "FIRST" ∧
    getLightColor { cfgEx with envelopeColorCustomField := "Missing" } esEx = none :=
  ⟨((customField_first_match cfgEx esEx [⟨"Other", "x"⟩]
        [⟨"Sales order", "SECOND"⟩] ⟨"Sales order", "FIRST"⟩).2.1
      (by decide) rfl),
    ((customField_first_match { cfgEx with envelopeColorCustomField := "Missing" }
        esEx [] [] ⟨"", ""⟩).2.2.1 (by decide))⟩

/-- C2.  A decodable but ineligible payload — status other than Completed,
or the business-key field absent or empty — performs no fulfillment and no
actuation, and the message is acked (and never nacked). -/
theorem ineligible_acked (cfg : Config) (env : Env) (fs : FS) (tfs : TFS)
    (es : EnvelopeStatus)
    (h : es.status ≠ "Completed" ∨ getOrderNumber cfg es = none ∨
      getOrderNumber cfg es = some "") :
    (messageHandler cfg env fs tfs (some ⟨"", some es⟩)).acks = 1 ∧
    (messageHandler cfg env fs tfs (some ⟨"", some es⟩)).nacks = 0 ∧
    (messageHandler cfg env fs tfs (some ⟨"", some es⟩)).saveDocCalls = 0 ∧
    (messageHandler cfg env fs tfs (some ⟨"", some es⟩)).lifxCalls = 0 := by
  have hp : process cfg env fs tfs "" (some es) =
      { fs := fs, tfs := tfs, saveDocCalls := 0, lifxCalls := 0,
        result := .resolved } := by
    rcases h with h | h | h
    · simp [process, bne_iff_ne, h]
    · by_cases hs : es.status = "Completed"
      · simp [process, hs, h, truthy]
      · simp [process, bne_iff_ne, hs]
    · by_cases hs : es.status = "Completed"
      · simp [process, hs, h, truthy]
      · simp [process, bne_iff_ne, hs]
  simp [messageHandler, hp]

/-- Witness for C2: an envelope in status Sent is acked with no calls. -/
theorem ineligible_acked_witness :
    ({ esEx with status := "Sent" } : EnvelopeStatus).status ≠ "Completed" ∧
    (messageHandler cfgEx envOk fsEmpty tfsEmpty
        (some ⟨"", some { esEx with status := "Sent" }⟩)).acks = 1 ∧
    (messageHandler cfgEx envOk fsEmpty tfsEmpty
        (some ⟨"", some { esEx with status := "Sent" }⟩)).nacks = 0 ∧
    (messageHandler cfgEx envOk fsEmpty tfsEmpty
        (some ⟨"", some { esEx with status := "Sent" }⟩)).saveDocCalls = 0 ∧
    (messageHandler cfgEx envOk fsEmpty tfsEmpty
        (some ⟨"", some { esEx with status := "Sent" }⟩)).lifxCalls = 0 :=
  ⟨by decide, ineligible_acked cfgEx envOk fsEmpty tfsEmpty _ (Or.inl (by decide))⟩

/-- C1 as amended.  When the fulfillment step of an eligible message
throws, the rejection propagates out of the message handler: the message
is neither acked nor nacked (the handler contains no nack call), and the
process does not exit. -/
theorem fulfillment_failure_unacked (cfg : Config) (env : Env) (fs : FS)
    (tfs : TFS) (es : EnvelopeStatus) (k : String)
    (hst : es.status = "Completed") (hk : getOrderNumber cfg es = some k)
    (hne : k ≠ "") (hsf : (saveDoc cfg env fs es.envelopeId k).ok = false) :
    (messageHandler cfg env fs tfs (some ⟨"", some es⟩)).acks = 0 ∧
    (messageHandler cfg env fs tfs (some ⟨"", some es⟩)).nacks = 0 ∧
    (messageHandler cfg env fs tfs (some ⟨"", some es⟩)).exited = none := by
  have ht : truthy (some k) = true := by simp [truthy, bne_iff_ne, hne]
  have hp : process cfg env fs tfs "" (some es) =
      { fs := (saveDoc cfg env fs es.envelopeId k).fs, tfs := tfs,
        saveDocCalls := 1, lifxCalls := 0, result := .rejected } := by
    simp [process, hst, hk, ht, hsf]
  simp [messageHandler, hp]

/-- Witness for C1 as amended: a failing fulfillment for the sample
eligible message yields zero acks and zero nacks. -/
theorem fulfillment_failure_unacked_witness :
    (saveDoc cfgEx envFail fsEmpty esEx.envelopeId "SO-123/A").ok = false ∧
    (messageHandler cfgEx envFail fsEmpty tfsEmpty (some ⟨"", some esEx⟩)).acks = 0 ∧
    (messageHandler cfgEx envFail fsEmpty tfsEmpty (some ⟨"", some esEx⟩)).nacks = 0 ∧
    (messageHandler cfgEx envFail fsEmpty tfsEmpty (some ⟨"", some esEx⟩)).exited =
      none :=
  ⟨by decide, fulfillment_failure_unacked cfgEx envFail fsEmpty tfsEmpty esEx
    "SO-123/A" rfl rfl (by decide) (by decide)⟩

/-- Counterexample to C1 as stated: on this eligible message whose
fulfillment throws, the handler performs zero nack calls, not exactly
one. -/
theorem fulfillment_failure_nack_cex :
    (messageHandler cfgEx envFail fsEmpty tfsEmpty (some ⟨"", some esEx⟩)).nacks = 0 ∧
    (messageHandler cfgEx envFail fsEmpty tfsEmpty (some ⟨"", some esEx⟩)).acks = 0 := by
  decide

/-- C3 as amended.  A message whose body fails JSON parsing is acked once,
never nacked, with no fulfillment; a message whose JSON body parses but
whose xml payload cannot be decoded into an envelope-status record is
neither acked nor nacked — the decode throw propagates out of the
handler. -/
theorem malformed_payload_ack (cfg : Config) (env : Env) (fs : FS) (tfs : TFS) :
    ((messageHandler cfg env fs tfs none).acks = 1 ∧
      (messageHandler cfg env fs tfs none).nacks = 0 ∧
      (messageHandler cfg env fs tfs none).saveDocCalls = 0) ∧
    ((messageHandler cfg env fs tfs (some ⟨"", none⟩)).acks = 0 ∧
      (messageHandler cfg env fs tfs (some ⟨"", none⟩)).nacks = 0) :=
  ⟨⟨rfl, rfl, rfl⟩, rfl, rfl⟩

/-- Counterexample to C3 as stated: a message whose JSON body parses but
whose xml payload is undecodable is not acked (zero ack calls). -/
theorem malformed_xml_not_acked_cex :
    (messageHandler cfgEx envOk fsEmpty tfsEmpty (some ⟨"", none⟩)).acks = 0 := rfl

/-- C7.  When an eligible message fulfills successfully and the secondary
light-color actuation is attempted, a failure of that call is swallowed:
the handler still acks the message once and never nacks it. -/
theorem actuation_failure_swallowed (cfg : Config) (env : Env) (fs : FS)
    (tfs : TFS) (es : EnvelopeStatus) (k c : String)
    (hst : es.status = "Completed") (hk : getOrderNumber cfg es = some k)
    (hne : k ≠ "") (hok : (saveDoc cfg env fs es.envelopeId k).ok = true)
    (hc : getLightColor cfg es = some c) (hcne : c ≠ "")
    (ht1 : cfg.lifxAccessToken ≠ "")
    (ht2 : cfg.lifxAccessToken ≠ "\x7bLIFX_ACCESS_TOKEN\x7d")
    (hrp : env.rpFails = true) :
    (messageHandler cfg env fs tfs (some ⟨"", some es⟩)).lifxCalls = 1 ∧
    (messageHandler cfg env fs tfs (some ⟨"", some es⟩)).acks = 1 ∧
    (messageHandler cfg env fs tfs (some ⟨"", some es⟩)).nacks = 0 := by
  have ht : truthy (some k) = true := by simp [truthy, bne_iff_ne, hne]
  have hcond : (truthy (getLightColor cfg es) && cfg.lifxAccessToken != "" &&
      cfg.lifxAccessToken != "\x7bLIFX_ACCESS_TOKEN\x7d") = true := by
    simp [hc, truthy, bne_iff_ne, hcne, ht1, ht2]
  have hp : process cfg env fs tfs "" (some es) =
      { fs := (saveDoc cfg env fs es.envelopeId k).fs, tfs := tfs,
        saveDocCalls := 1, lifxCalls := 1, result := .resolved } := by
    simp [process, hst, hk, ht, hok, hcond]
  simp [messageHandler, hp]

/-- Witness for C7: with a configured token and a failing LIFX call, the
sample eligible message still ends acked with one actuation attempt. -/
theorem actuation_failure_swallowed_witness :
    envRpFail.rpFails = true ∧
    (messageHandler cfgLifx envRpFail fsEmpty tfsEmpty
        (some ⟨"", some esEx⟩)).lifxCalls = 1 ∧
    (messageHandler cfgLifx envRpFail fsEmpty tfsEmpty
        (some ⟨"", some esEx⟩)).acks = 1 ∧
    (messageHandler cfgLifx envRpFail fsEmpty tfsEmpty
        (some ⟨"", some esEx⟩)).nacks = 0 :=
  ⟨rfl, actuation_failure_swallowed cfgLifx envRpFail fsEmpty tfsEmpty esEx
    "SO-123/A" "green" rfl rfl (by decide) (by decide) rfl (by decide)
    (by decide) (by decide) rfl⟩

/-- C10.  After a successful fulfillment the actuation call is attempted
exactly when a light color was extracted and the configured token is set
and differs from the placeholder; otherwise it is skipped entirely, and in
either case the message is acked once and never nacked. -/
theorem actuation_condition (cfg : Config) (env : Env) (fs : FS) (tfs : TFS)
    (es : EnvelopeStatus) (k : String)
    (hst : es.status = "Completed") (hk : getOrderNumber cfg es = some k)
    (hne : k ≠ "") (hok : (saveDoc cfg env fs es.envelopeId k).ok = true) :
    ((truthy (getLightColor cfg es) && cfg.lifxAccessToken != "" &&
        cfg.lifxAccessToken != "\x7bLIFX_ACCESS_TOKEN\x7d") = true →
      (messageHandler cfg env fs tfs (some ⟨"", some es⟩)).lifxCalls = 1) ∧
    ((truthy (getLightColor cfg es) && cfg.lifxAccessToken != "" &&
        cfg.lifxAccessToken != "\x7bLIFX_ACCESS_TOKEN\x7d") = false →
      (messageHandler cfg env fs tfs (some ⟨"", some es⟩)).lifxCalls = 0) ∧
    (messageHandler cfg env fs tfs (some ⟨"", some es⟩)).acks = 1 ∧
    (messageHandler cfg env fs tfs (some ⟨"", some es⟩)).nacks = 0 := by
  have ht : truthy (some k) = true := by simp [truthy, bne_iff_ne, hne]
  rcases hcond : (truthy (getLightColor cfg es) && cfg.lifxAccessToken != "" &&
      cfg.lifxAccessToken != "\x7bLIFX_ACCESS_TOKEN\x7d") with _ | _
  · have hp : process cfg env fs tfs "" (some es) =
        { fs := (saveDoc cfg env fs es.envelopeId k).fs, tfs := tfs,
          saveDocCalls := 1, lifxCalls := 0, result := .resolved } := by
      simp [process, hst, hk, ht, hok, hcond]
    simp [messageHandler, hp]
  · have hp : process cfg env fs tfs "" (some es) =
        { fs := (saveDoc cfg env fs es.envelopeId k).fs, tfs := tfs,
          saveDocCalls := 1, lifxCalls := 1, result := .resolved } := by
      simp [process, hst, hk, ht, hok, hcond]
    simp [messageHandler, hp]

/-- Witness for C10: with the empty token of the sample configuration the
actuation is skipped while the message is still acked. -/
theorem actuation_condition_witness :
    ((truthy (getLightColor cfgEx esEx) && cfgEx.lifxAccessToken != "" &&
        cfgEx.lifxAccessToken != "\x7bLIFX_ACCESS_TOKEN\x7d") = false) ∧
    (messageHandler cfgEx envOk fsEmpty tfsEmpty
        (some ⟨"", some esEx⟩)).lifxCalls = 0 ∧
    (messageHandler cfgEx envOk fsEmpty tfsEmpty
        (some ⟨"", some esEx⟩)).acks = 1 ∧
    (messageHandler cfgEx envOk fsEmpty tfsEmpty
        (some ⟨"", some esEx⟩)).nacks = 0 :=
  ⟨by decide,
    (actuation_condition cfgEx envOk fsEmpty tfsEmpty esEx "SO-123/A" rfl rfl
      (by decide) (by decide)).2.1 (by decide),
    (actuation_condition cfgEx envOk fsEmpty tfsEmpty esEx "SO-123/A" rfl rfl
      (by decide) (by decide)).2.2⟩

/-- Renaming clears the source slot whether or not it was occupied. -/
theorem renameStep_self (tfs : TFS) (i : Nat) : renameStep tfs i i = none := by
  unfold renameStep
  cases h : tfs i with
  | none => exact h
  | some v => simp [Nat.ne_of_lt (Nat.lt_succ_self i)]

/-- Renaming at index i leaves every slot other than i and i+1 unchanged. -/
theorem renameStep_untouched (tfs : TFS) (i j : Nat) (hj : j ≠ i)
    (hj2 : j ≠ i + 1) : renameStep tfs i j = tfs j := by
  unfold renameStep
  cases h : tfs i with
  | none => rfl
  | some v => simp [hj, hj2]

/-- Slots above step n + 1 are untouched by the shift loop. -/
theorem shiftLoop_untouched (n : Nat) (tfs : TFS) (j : Nat) (h : n + 2 ≤ j) :
    shiftLoop n tfs j = tfs j := by
  induction n generalizing tfs with
  | zero => rfl
  | succ m ih =>
    show shiftLoop m (renameStep tfs (m + 1)) j = tfs j
    rw [ih _ (by omega), renameStep_untouched tfs (m + 1) j (by omega) (by omega)]

/-- The topmost slot of the loop receives the slot below it when the slot
itself starts empty. -/
theorem shiftLoop_top (n : Nat) (tfs : TFS) (hn : 1 ≤ n)
    (htop : tfs (n + 1) = none) : shiftLoop n tfs (n + 1) = tfs n := by
  cases n with
  | zero => omega
  | succ m =>
    show shiftLoop m (renameStep tfs (m + 1)) (m + 2) = tfs (m + 1)
    rw [shiftLoop_untouched m _ (m + 2) (by omega)]
    unfold renameStep
    cases h : tfs (m + 1) with
    | none =>
      simp only [h]
      exact htop
    | some v => simp [h]

/-- Inside the loop range, slot j ends up holding what slot j - 1 held. -/
theorem shiftLoop_apply (n : Nat) (tfs : TFS) (j : Nat) (h2 : 2 ≤ j)
    (hn : j ≤ n) : shiftLoop n tfs j = tfs (j - 1) := by
  induction n generalizing tfs with
  | zero => omega
  | succ m ih =>
    show shiftLoop m (renameStep tfs (m + 1)) j = tfs (j - 1)
    rcases Nat.lt_or_ge j (m + 1) with hj | hj
    · rw [ih _ (by omega),
        renameStep_untouched tfs (m + 1) (j - 1) (by omega) (by omega)]
    · have hje : j = m + 1 := by omega
      subst hje
      rw [shiftLoop_top m _ (by omega) (renameStep_self tfs (m + 1)),
        renameStep_untouched tfs (m + 1) m (by omega) (by omega)]
      congr 1

/-- The shift moves slot 1 up to slot 2. -/
theorem shiftFiles_two (tfs : TFS) : shiftFiles tfs 2 = tfs 1 :=
  shiftLoop_apply 19 tfs 2 (by omega) (by omega)

/-- The shift moves slot 2 up to slot 3. -/
theorem shiftFiles_three (tfs : TFS) : shiftFiles tfs 3 = tfs 2 :=
  shiftLoop_apply 19 tfs 3 (by omega) (by omega)

/-- One harness submission without a break marker: the result is a normal
return and the shifted store updated at slot 1. -/
theorem processTest_no_break (cfg : Config) (v : String) (tfs : TFS)
    (h : includesBreak v = false) :
    processTest cfg v tfs =
      (.resolved, fun j => if j = 1 then some v else shiftFiles tfs j) := by
  unfold processTest
  rw [h, Bool.and_false]
  rfl

/-- C6.  Submitting the test values v1, v2, v3 in order to a fresh harness
directory leaves test1.txt holding v3, test2.txt holding v2 and test3.txt
holding v1, each submission returning normally; the shift renames the
marker files from high index down to 1 before test1.txt is written. -/
theorem harness_ordering (cfg : Config) (v1 v2 v3 : String)
    (h1 : includesBreak v1 = false) (h2 : includesBreak v2 = false)
    (h3 : includesBreak v3 = false) :
    (processTest cfg v3
        (processTest cfg v2 (processTest cfg v1 tfsEmpty).2).2).1 = .resolved ∧
    (processTest cfg v3
        (processTest cfg v2 (processTest cfg v1 tfsEmpty).2).2).2 1 = some v3 ∧
    (processTest cfg v3
        (processTest cfg v2 (processTest cfg v1 tfsEmpty).2).2).2 2 = some v2 ∧
    (processTest cfg v3
        (processTest cfg v2 (processTest cfg v1 tfsEmpty).2).2).2 3 = some v1 := by
  simp only [processTest_no_break, h1, h2, h3]
  simp [shiftFiles_two, shiftFiles_three]

/-- Witness for C6 at three concrete test values. -/
theorem harness_ordering_witness :
    (processTest cfgEx "v3"
        (processTest cfgEx "v2" (processTest cfgEx "v1" tfsEmpty).2).2).1 =
      .resolved ∧
    (processTest cfgEx "v3"
        (processTest cfgEx "v2" (processTest cfgEx "v1" tfsEmpty).2).2).2 1 =
      some "v3" ∧
    (processTest cfgEx "v3"
        (processTest cfgEx "v2" (processTest cfgEx "v1" tfsEmpty).2).2).2 2 =
      some "v2" ∧
    (processTest cfgEx "v3"
        (processTest cfgEx "v2" (processTest cfgEx "v1" tfsEmpty).2).2).2 3 =
      some "v1" :=
  harness_ordering cfgEx "v1" "v2" "v3" rfl rfl rfl

/-- C8 as amended.  The startup token check exits via process.exit() with
the node default status 0 — on a missing or placeholder clientId and on
any checkToken error carrying a response body — while the harness break
path exits with status 2, non-zero and distinct from the startup status,
leaving the marker files untouched (no shift step or write happens). -/
theorem startup_and_break_exit_codes (cfg : Config) (v : String) (tfs : TFS)
    (hb : cfg.enableBreakTest = true) (hv : includesBreak v = true) :
    (∀ chk, testToken "" chk = .exit 0) ∧
    (∀ chk, testToken "\x7bCLIENT_ID\x7d" chk = .exit 0) ∧
    (∀ cid b, testToken cid (.errorWithBody b) = .exit 0) ∧
    processTest cfg v tfs = (.exited 2, tfs) ∧ (2 : Nat) ≠ 0 := by
  refine ⟨fun chk => rfl, fun chk => rfl, fun cid b => ?_, ?_, by decide⟩
  · cases b <;> (unfold testToken; split <;> rfl)
  · unfold processTest
    rw [hb, hv]
    rfl

/-- Witness for C8 as amended at concrete inputs. -/
theorem startup_and_break_exit_codes_witness :
    testToken "" CheckTokenOutcome.ok = .exit 0 ∧
    testToken "configured-id" (.errorWithBody true) = .exit 0 ∧
    processTest cfgLifx "a/break" tfsEmpty = (.exited 2, tfsEmpty) :=
  ⟨(startup_and_break_exit_codes cfgLifx "a/break" tfsEmpty rfl rfl).1
      CheckTokenOutcome.ok,
    (startup_and_break_exit_codes cfgLifx "a/break" tfsEmpty rfl rfl).2.2.1
      "configured-id" true,
    (startup_and_break_exit_codes cfgLifx "a/break" tfsEmpty rfl rfl).2.2.2.1⟩

/-- Counterexample to C8 as stated: the startup check's exit on a fatal
configuration failure carries status 0, not a non-zero status. -/
theorem startup_exit_zero_cex :
    testToken "" CheckTokenOutcome.ok = StartupResult.exit 0 := rfl

end Worker
